import Mathlib

/-!
# Verification of the rental CRM rule engine

Shallow embedding of the business-rule core of the `rental_crm` repository:
the pricing strategies (`rental_app/patterns/pricing_strategy.py`), the fine
calculator (`rental_app/patterns/fine_calculator.py`), the rental factory
(`rental_app/patterns/rental_factory.py`) and the rental lifecycle service
(`rental_app/services/rental_service.py`).

Modelling conventions:
* Python `Decimal` arithmetic on these magnitudes is exact, so money is `ℚ`.
* Python `date`s are modelled as `Int` day numbers; `(d2 - d1).days = d2 - d1`
  and `d + timedelta(days=n) = d + n`.
* The ambient `date.today()` and `date.today().year` are threaded explicitly
  as parameters `today : Int` and `current_year : Int`.
* Persistence objects become records; an operation that raises before writing
  returns `Except` with the error, and its writes appear only in the success
  payload, mirroring the fail-fast structure of the source (all `raise`
  statements precede every ORM write).
-/

namespace RentalCRM

/-- `Car.STATUS_CHOICES` in `rental_app/models.py`. -/
inductive CarStatus
  | available
  | rented
  | maintenance
  | unavailable
deriving DecidableEq, Repr

/-- `Rental.STATUS_CHOICES` in `rental_app/models.py`. -/
inductive RentalStatus
  | pending
  | active
  | completed
  | overdue
  | cancelled
deriving DecidableEq, Repr

/-- `Payment.PAYMENT_TYPE_CHOICES` in `rental_app/models.py`. -/
inductive PaymentType
  | deposit
  | refund
  | additional
  | fine
deriving DecidableEq, Repr

/-- The fields of `Car` used by the rule engine (`rental_app/models.py`). -/
structure Car where
  year : Int
  daily_price : ℚ
  status : CarStatus
deriving DecidableEq, Repr

/-- `Car.is_available` property: `self.status == 'available'`. -/
def Car.is_available (car : Car) : Bool :=
  car.status = CarStatus.available

/-- The fields of `Rental` used by the rule engine (`rental_app/models.py`).
Clients are referenced by an opaque identifier. -/
structure Rental where
  client : Nat
  car : Car
  start_date : Int
  expected_end_date : Int
  actual_end_date : Option Int := none
  deposit : ℚ
  daily_cost : ℚ
  total_cost : ℚ := 0
  status : RentalStatus := RentalStatus.pending
  damage_level : Int := 0
  late_days : Int := 0
deriving DecidableEq, Repr

/-- A `Fine` row (`rental_app/models.py`); the owning rental is implicit in
the operation that creates it. -/
structure Fine where
  reason : String
  amount : ℚ
deriving DecidableEq, Repr

/-- A `Payment` row (`rental_app/models.py`); the owning rental is implicit in
the operation that creates it. -/
structure Payment where
  payment_type : PaymentType
  amount : ℚ
deriving DecidableEq, Repr

/-! ## Pricing strategies (`rental_app/patterns/pricing_strategy.py`) -/

/-- `StandardPricingStrategy.calculate_price`:
`days = (end_date - start_date).days + 1; daily_price * days`. -/
def standard_calculate_price (car : Car) (start_date end_date : Int) : ℚ :=
  let days := end_date - start_date + 1
  car.daily_price * (days : ℚ)

/-- `YearBasedPricingStrategy.calculate_price`, with the ambient
`date.today().year` passed as `current_year`. -/
def year_based_calculate_price (current_year : Int) (car : Car)
    (start_date end_date : Int) : ℚ :=
  let days := end_date - start_date + 1
  let age := current_year - car.year
  let multiplier : ℚ :=
    if age ≤ 2 then 1.2
    else if age ≤ 5 then 1.0
    else if age ≤ 10 then 0.9
    else 0.8
  car.daily_price * (days : ℚ) * multiplier

/-- `DurationBasedPricingStrategy.calculate_price`. -/
def duration_based_calculate_price (car : Car) (start_date end_date : Int) : ℚ :=
  let days := end_date - start_date + 1
  let base_price := car.daily_price * (days : ℚ)
  let discount : ℚ :=
    if days ≥ 30 then 0.15
    else if days ≥ 14 then 0.10
    else if days ≥ 7 then 0.05
    else 0.0
  base_price * (1.0 - discount)

/-- First component of `CombinedPricingStrategy._calculate_year_multiplier`
(the second component is a display string, irrelevant to pricing). -/
def combined_year_multiplier (age : Int) : ℚ :=
  if age ≤ 2 then 1.2
  else if age ≤ 5 then 1.0
  else if age ≤ 10 then 0.9
  else 0.8

/-- First component of `CombinedPricingStrategy._calculate_duration_discount`. -/
def combined_duration_discount (days : Int) : ℚ :=
  if days ≥ 30 then 0.15
  else if days ≥ 14 then 0.10
  else if days ≥ 7 then 0.05
  else 0.0

/-- `CombinedPricingStrategy.calculate_price`. -/
def combined_calculate_price (current_year : Int) (car : Car)
    (start_date end_date : Int) : ℚ :=
  let days := end_date - start_date + 1
  let age := current_year - car.year
  let year_multiplier := combined_year_multiplier age
  let duration_discount := combined_duration_discount days
  let base_price := car.daily_price * (days : ℚ) * year_multiplier
  base_price * (1.0 - duration_discount)

/-- The four strategy classes registered in `PricingStrategyFactory.STRATEGIES`. -/
inductive StrategyKind
  | standard
  | year_based
  | duration_based
  | combined
deriving DecidableEq, Repr

/-- `PricingStrategyFactory.create_strategy`: dictionary lookup with fallback
`CombinedPricingStrategy` for an unknown name. -/
def create_strategy (strategy_type : String) : StrategyKind :=
  if strategy_type = "standard" then StrategyKind.standard
  else if strategy_type = "year_based" then StrategyKind.year_based
  else if strategy_type = "duration_based" then StrategyKind.duration_based
  else StrategyKind.combined

/-- `PricingStrategyFactory.get_default_strategy` = `create_strategy('combined')`. -/
def get_default_strategy : StrategyKind :=
  create_strategy "combined"

/-- Dispatch of the polymorphic `calculate_price` over the strategy kinds. -/
def calculate_price (k : StrategyKind) (current_year : Int) (car : Car)
    (start_date end_date : Int) : ℚ :=
  match k with
  | StrategyKind.standard => standard_calculate_price car start_date end_date
  | StrategyKind.year_based =>
      year_based_calculate_price current_year car start_date end_date
  | StrategyKind.duration_based =>
      duration_based_calculate_price car start_date end_date
  | StrategyKind.combined =>
      combined_calculate_price current_year car start_date end_date

/-! ## Fine calculator (`rental_app/patterns/fine_calculator.py`) -/

/-- `StandardFineStrategy.DAMAGE_MULTIPLIERS` lookup combined with the
coercion `if damage_level not in DAMAGE_MULTIPLIERS: damage_level = 0`:
levels 0 and every out-of-range level yield multiplier `0.0`. -/
def damage_multiplier (damage_level : Int) : ℚ :=
  if damage_level = 1 then 0.1
  else if damage_level = 2 then 0.3
  else if damage_level = 3 then 0.5
  else 0.0

/-- `StandardFineStrategy.calculate_damage_fine`: `rental.deposit * multiplier`. -/
def calculate_damage_fine (rental : Rental) (damage_level : Int) : ℚ :=
  rental.deposit * damage_multiplier damage_level

/-- `StandardFineStrategy.calculate_late_fine`:
`0` when `late_days <= 0`, else `LATE_FINE_PER_DAY (= 500.00) * late_days`. -/
def calculate_late_fine (rental : Rental) (late_days : Int) : ℚ :=
  if late_days ≤ 0 then 0.00
  else 500.00 * (late_days : ℚ)

/-- `FineCalculator.calculate_total_fines` (with the default
`StandardFineStrategy`): damage fine plus late fine. -/
def calculate_total_fines (rental : Rental) (damage_level late_days : Int) : ℚ :=
  calculate_damage_fine rental damage_level + calculate_late_fine rental late_days

/-- `FineCalculator.calculate_refund`: `max(deposit - total_fines, 0.00)`. -/
def calculate_refund (rental : Rental) (total_fines : ℚ) : ℚ :=
  max (rental.deposit - total_fines) 0.00

/-! ## Rental factory (`rental_app/patterns/rental_factory.py`) -/

/-- `RentalFactory.calculate_deposit`: price the default (Combined) strategy
over `[today, today + rental_days]` and take 30%. -/
def calculate_deposit (today current_year : Int) (car : Car)
    (rental_days : Int) : ℚ :=
  let strategy := get_default_strategy
  let estimated_end := today + rental_days
  let rental_cost := calculate_price strategy current_year car today estimated_end
  rental_cost * 0.3

/-- Modelled from the spec: "estimate rental cost via the default pricing
strategy over a window of `rental_days` starting today, then take 30% of that
estimate" - a window of exactly `rental_days` inclusive days starting today
is `[today, today + rental_days - 1]`. Exists only for comparison with
`calculate_deposit`. -/
def calculate_deposit_specWindow (today current_year : Int) (car : Car)
    (rental_days : Int) : ℚ :=
  calculate_price get_default_strategy current_year car
    today (today + rental_days - 1) * 0.3

/-- The three `raise ValueError` sites of `RentalFactory.create_rental`, in
source order. The spec's `VehicleUnavailable` is `vehicleUnavailable`; the
spec's `InvalidDateRange` covers `startInPast` and `endNotAfterStart`. -/
inductive RentalError
  | vehicleUnavailable
  | startInPast
  | endNotAfterStart
deriving DecidableEq, Repr

/-- The rows written by a successful `RentalFactory.create_rental`: the new
rental, its deposit payment, and the car with its updated status. -/
structure CreateResult where
  rental : Rental
  payment : Payment
  car : Car
deriving DecidableEq, Repr

/-- `RentalFactory.create_rental`. The three validations run before any
write; an error therefore carries no partial state. On success the function
returns every row written by the transaction. -/
def create_rental (today current_year : Int) (client : Nat) (car : Car)
    (start_date end_date : Int) (pricing_strategy : String) :
    Except RentalError CreateResult :=
  if ¬ car.is_available then Except.error RentalError.vehicleUnavailable
  else if start_date < today then Except.error RentalError.startInPast
  else if end_date ≤ start_date then Except.error RentalError.endNotAfterStart
  else
    let strategy := create_strategy pricing_strategy
    let total_cost := calculate_price strategy current_year car start_date end_date
    let daily_cost := car.daily_price
    let days := (end_date - start_date) + 1
    let deposit := calculate_deposit today current_year car days
    let rental_status :=
      if start_date ≤ today then RentalStatus.active else RentalStatus.pending
    let rental : Rental :=
      { client := client
        car := car
        start_date := start_date
        expected_end_date := end_date
        actual_end_date := none
        deposit := deposit
        daily_cost := daily_cost
        total_cost := total_cost
        status := rental_status
        damage_level := 0
        late_days := 0 }
    let payment : Payment := { payment_type := PaymentType.deposit, amount := deposit }
    Except.ok { rental := rental, payment := payment,
                car := { car with status := CarStatus.rented } }

/-- `RentalFactory.validate_rental_dates`. Pure: performs no write. -/
def validate_rental_dates (today : Int) (start_date end_date : Int) :
    Bool × String :=
  let max_rental_days : Int := 365
  if start_date < today then
    (false, "Дата початку не може бути в минулому")
  else if end_date ≤ start_date then
    (false, "Дата закінчення повинна бути після дати початку")
  else
    let rental_days := end_date - start_date
    if rental_days > max_rental_days then
      (false, "Максимальна тривалість оренди - 365 днів")
    else if rental_days < 1 then
      (false, "Мінімальна тривалість оренди - 1 день")
    else
      (true, "")

/-! ## Rental service (`rental_app/services/rental_service.py`) -/

/-- Row effect of the first bulk update of `update_overdue_rentals`:
`filter(status='pending', start_date__lte=today).update(status='active')`. -/
def sweep_pending (today : Int) (r : Rental) : Rental :=
  if r.status = RentalStatus.pending ∧ r.start_date ≤ today then
    { r with status := RentalStatus.active }
  else r

/-- Row effect of the second bulk update of `update_overdue_rentals`:
`filter(status='active', expected_end_date__lt=today).update(status='overdue')`. -/
def sweep_overdue (today : Int) (r : Rental) : Rental :=
  if r.status = RentalStatus.active ∧ r.expected_end_date < today then
    { r with status := RentalStatus.overdue }
  else r

/-- `RentalService.update_overdue_rentals` over the table of rentals: count
and update the pending rows, then - on the already updated table, because the
second queryset is evaluated after the first `update` - count and update the
overdue rows; return the new table and `pending_count + overdue_count`. -/
def update_overdue_rentals (today : Int) (rentals : List Rental) :
    List Rental × Nat :=
  let pending_count := rentals.countP fun r =>
    decide (r.status = RentalStatus.pending ∧ r.start_date ≤ today)
  let rentals1 := rentals.map (sweep_pending today)
  let overdue_count := rentals1.countP fun r =>
    decide (r.status = RentalStatus.active ∧ r.expected_end_date < today)
  let rentals2 := rentals1.map (sweep_overdue today)
  (rentals2, pending_count + overdue_count)

/-- Modelled from the spec: the sweep with its two bulk transitions run in
the opposite order, (b) `active`→`overdue` first, then (a)
`pending`→`active`. The spec asserts this reordering changes neither the
final state nor the count; this definition exists only for that comparison. -/
def update_overdue_rentals_bFirst (today : Int) (rentals : List Rental) :
    List Rental × Nat :=
  let overdue_count := rentals.countP fun r =>
    decide (r.status = RentalStatus.active ∧ r.expected_end_date < today)
  let rentals1 := rentals.map (sweep_overdue today)
  let pending_count := rentals1.countP fun r =>
    decide (r.status = RentalStatus.pending ∧ r.start_date ≤ today)
  let rentals2 := rentals1.map (sweep_pending today)
  (rentals2, overdue_count + pending_count)

/-- `RentalService._create_fine_records`: a damage `Fine` row whenever
`damage_level > 0` and a late `Fine` row whenever `late_days > 0`. -/
def create_fine_records (rental : Rental) (damage_level late_days : Int) :
    List Fine :=
  (if damage_level > 0 then
    [{ reason := "Пошкодження рівня " ++ toString damage_level
       amount := calculate_damage_fine rental damage_level }]
   else []) ++
  (if late_days > 0 then
    [{ reason := "Запізнення на " ++ toString late_days ++ " днів"
       amount := calculate_late_fine rental late_days }]
   else [])

/-- The rows written by `RentalService.complete_rental`, together with its
`(rental, total_fines, refund)` return value. -/
structure CompleteResult where
  rental : Rental
  total_fines : ℚ
  refund : ℚ
  fines : List Fine
  refund_payment : Option Payment
deriving DecidableEq, Repr

/-- `RentalService.complete_rental`. Fines and refund are computed from the
rental's current deposit; the rental's fields are then updated, its total
cost recomputed with the default strategy over
`[start_date, actual_end_date]` plus the fines, the fine rows created, a
refund payment created only when `refund > 0`, and the car freed. -/
def complete_rental (current_year : Int) (rental : Rental)
    (actual_end_date : Int) (damage_level late_days : Int) : CompleteResult :=
  let total_fines := calculate_total_fines rental damage_level late_days
  let refund := calculate_refund rental total_fines
  let strategy := get_default_strategy
  let recomputed_cost :=
    calculate_price strategy current_year rental.car rental.start_date actual_end_date
  let updated : Rental :=
    { rental with
        actual_end_date := some actual_end_date
        damage_level := damage_level
        late_days := late_days
        status := RentalStatus.completed
        total_cost := recomputed_cost + total_fines
        car := { rental.car with status := CarStatus.available } }
  { rental := updated
    total_fines := total_fines
    refund := refund
    fines := create_fine_records updated damage_level late_days
    refund_payment :=
      if refund > 0 then
        some { payment_type := PaymentType.refund, amount := refund }
      else none }

/-! ## Concrete sample data for witnesses and counterexamples -/

/-- A car available today: built in `current_year` (age 0), 100/day. -/
def sampleCar : Car :=
  { year := 2025, daily_price := 100, status := CarStatus.available }

/-- An active rental of `sampleCar` with deposit 3000. -/
def sampleRental : Rental :=
  { client := 0
    car := sampleCar
    start_date := 0
    expected_end_date := 9
    actual_end_date := none
    deposit := 3000
    daily_cost := 100
    total_cost := 0
    status := RentalStatus.active
    damage_level := 0
    late_days := 0 }

/-- A rental still `pending` although its whole window is already in the
past: `start_date = 5 ≤ 10 = today` and `expected_end_date = 7 < 10`. -/
def pendingLateRental : Rental :=
  { client := 1
    car := sampleCar
    start_date := 5
    expected_end_date := 7
    actual_end_date := none
    deposit := 3000
    daily_cost := 100
    total_cost := 0
    status := RentalStatus.pending
    damage_level := 0
    late_days := 0 }

/-! ## Claim theorems -/

/-- Claim C1: for every car and every date range `[s, e]` with `e > s`, the
Combined (default) strategy returns
`daily_price × days × year_multiplier × (1 − duration_discount)` with
`days = e − s + 1` inclusive of both endpoints - that is, the Standard price
times the year multiplier times one minus the duration discount - and the
multiplier and discount brackets take the documented values at the boundary
ages 2, 3, 5, 6, 10, 11 and boundary day counts 6, 7, 13, 14, 29, 30. -/
theorem combined_price_decomposition (current_year : Int) (car : Car)
    (s e : Int) (h : s < e) :
    combined_calculate_price current_year car s e =
      car.daily_price * ((e - s + 1 : Int) : ℚ)
        * combined_year_multiplier (current_year - car.year)
        * (1 - combined_duration_discount (e - s + 1)) ∧
    combined_calculate_price current_year car s e =
      standard_calculate_price car s e
        * combined_year_multiplier (current_year - car.year)
        * (1 - combined_duration_discount (e - s + 1)) ∧
    combined_year_multiplier 2 = 1.2 ∧ combined_year_multiplier 3 = 1.0 ∧
    combined_year_multiplier 5 = 1.0 ∧ combined_year_multiplier 6 = 0.9 ∧
    combined_year_multiplier 10 = 0.9 ∧ combined_year_multiplier 11 = 0.8 ∧
    combined_duration_discount 6 = 0 ∧ combined_duration_discount 7 = 0.05 ∧
    combined_duration_discount 13 = 0.05 ∧
    combined_duration_discount 14 = 0.10 ∧
    combined_duration_discount 29 = 0.10 ∧
    combined_duration_discount 30 = 0.15 := by
  refine ⟨?_, ?_, ?_, ?_, ?_, ?_, ?_, ?_, ?_, ?_, ?_, ?_, ?_, ?_⟩
  · unfold combined_calculate_price
    ring
  · unfold combined_calculate_price standard_calculate_price
    ring
  all_goals norm_num [combined_year_multiplier, combined_duration_discount]

/-- Witness for C1 at a concrete car and date range. -/
theorem combined_price_decomposition_witness :
    (0 : Int) < 9 ∧
    combined_calculate_price 2025 sampleCar 0 9 =
      standard_calculate_price sampleCar 0 9
        * combined_year_multiplier (2025 - sampleCar.year)
        * (1 - combined_duration_discount (9 - 0 + 1)) :=
  ⟨by norm_num, (combined_price_decomposition 2025 sampleCar 0 9 (by norm_num)).2.1⟩

/-- Claim C4, counterexample: `calculate_deposit(car, 10)` is NOT 30% of a
10-day Combined estimate anchored at today. The source prices the window
`[today, today + rental_days]`, which spans `rental_days + 1` inclusive
days: for `sampleCar` (age 0, 100/day) and 10 rental days the code yields
`100 × 11 × 1.2 × 0.95 × 0.3 = 376.2`, while a 10-day estimate gives
`100 × 10 × 1.2 × 0.95 × 0.3 = 342`. -/
theorem calculate_deposit_counterexample :
    calculate_deposit 0 2025 sampleCar 10 ≠
      calculate_deposit_specWindow 0 2025 sampleCar 10 := by
  have hdef : get_default_strategy = StrategyKind.combined := rfl
  unfold calculate_deposit calculate_deposit_specWindow
  rw [hdef]
  norm_num [calculate_price, combined_calculate_price,
    combined_year_multiplier, combined_duration_discount, sampleCar]

/-- Claim C4 as amended: `calculate_deposit(car, rental_days)` equals 30% of
the default (Combined) strategy price over `[today, today + rental_days]`,
i.e. 30% of an estimate spanning `rental_days + 1` inclusive days anchored
at today (and still independent of the rental's intended start date). -/
theorem calculate_deposit_amended (today current_year : Int) (car : Car)
    (rental_days : Int) :
    calculate_deposit today current_year car rental_days =
      combined_calculate_price current_year car today (today + rental_days)
        * 0.3 ∧
    calculate_deposit today current_year car rental_days =
      calculate_deposit_specWindow today current_year car (rental_days + 1) := by
  constructor
  · rfl
  · unfold calculate_deposit calculate_deposit_specWindow
    have harg : today + (rental_days + 1) - 1 = today + rental_days := by ring
    rw [harg]

/-- Claim C6: `calculate_total_fines(rental, damage_level, late_days)` equals
`deposit × M(damage_level) + L(late_days)` where `M` maps
`{0 ↦ 0, 1 ↦ 0.1, 2 ↦ 0.3, 3 ↦ 0.5}` and coerces any other level to 0 (no
fine, no error), and `L(late_days) = late_days × 500` when positive, else 0;
and the total equals `calculate_damage_fine + calculate_late_fine`. -/
theorem calculate_total_fines_spec (r : Rental) (damage_level late_days : Int) :
    calculate_total_fines r damage_level late_days =
      r.deposit * damage_multiplier damage_level +
        (if late_days > 0 then (late_days : ℚ) * 500.00 else 0) ∧
    damage_multiplier 0 = 0.0 ∧ damage_multiplier 1 = 0.1 ∧
    damage_multiplier 2 = 0.3 ∧ damage_multiplier 3 = 0.5 ∧
    (damage_level ≠ 0 → damage_level ≠ 1 → damage_level ≠ 2 →
      damage_level ≠ 3 → damage_multiplier damage_level = 0) ∧
    calculate_total_fines r damage_level late_days =
      calculate_damage_fine r damage_level + calculate_late_fine r late_days := by
  refine ⟨?_, by norm_num [damage_multiplier], by norm_num [damage_multiplier],
    by norm_num [damage_multiplier], by norm_num [damage_multiplier], ?_, rfl⟩
  · unfold calculate_total_fines calculate_damage_fine calculate_late_fine
    rcases le_or_lt late_days 0 with hle | hlt
    · rw [if_pos hle, if_neg (by omega)]
      norm_num
    · rw [if_neg (by omega), if_pos hlt]
      ring
  · intro h0 h1 h2 h3
    norm_num [damage_multiplier, h1, h2, h3]

/-- Witness for C6: the out-of-range damage level 7 is coerced to
multiplier 0. -/
theorem calculate_total_fines_spec_witness :
    damage_multiplier 7 = 0 :=
  (calculate_total_fines_spec sampleRental 7 0).2.2.2.2.2.1
    (by norm_num) (by norm_num) (by norm_num) (by norm_num)

/-- Claim C7: `calculate_refund(rental, total_fines)` equals
`max(deposit − total_fines, 0)`; for every `total_fines ≥ 0` the refund is
nonnegative, and it equals `deposit − total_fines` whenever
`total_fines ≤ deposit`. -/
theorem calculate_refund_spec (r : Rental) (total_fines : ℚ)
    (h : 0 ≤ total_fines) :
    calculate_refund r total_fines = max (r.deposit - total_fines) 0 ∧
    0 ≤ calculate_refund r total_fines ∧
    (total_fines ≤ r.deposit →
      calculate_refund r total_fines = r.deposit - total_fines) := by
  refine ⟨by norm_num [calculate_refund], ?_, ?_⟩
  · unfold calculate_refund
    exact le_trans (by norm_num) (le_max_right _ _)
  · intro hle
    unfold calculate_refund
    rw [max_eq_left (by linarith)]

/-- Witness for C7: deposit 3000, fines 2400, refund 600. -/
theorem calculate_refund_spec_witness :
    (0 : ℚ) ≤ 2400 ∧
    (calculate_refund sampleRental 2400 = max (sampleRental.deposit - 2400) 0 ∧
     0 ≤ calculate_refund sampleRental 2400 ∧
     ((2400 : ℚ) ≤ sampleRental.deposit →
       calculate_refund sampleRental 2400 = sampleRental.deposit - 2400)) :=
  ⟨by norm_num, calculate_refund_spec sampleRental 2400 (by norm_num)⟩

/-- Claim C9: `validate_rental_dates(start, end)` returns `(True, "")` if and
only if start is not in the past, end is after start, and the duration
`(end − start).days` is at most 365 (and at least 1, which `end > start`
already forces on integer day counts); in every other case it returns
`False` with the matching error message. The function is pure: it takes no
store and performs no write. -/
theorem validate_rental_dates_spec (today start_date end_date : Int) :
    (validate_rental_dates today start_date end_date = (true, "") ↔
      (today ≤ start_date ∧ start_date < end_date ∧
        end_date - start_date ≤ 365 ∧ 1 ≤ end_date - start_date)) ∧
    (start_date < today →
      validate_rental_dates today start_date end_date =
        (false, "Дата початку не може бути в минулому")) ∧
    (today ≤ start_date → end_date ≤ start_date →
      validate_rental_dates today start_date end_date =
        (false, "Дата закінчення повинна бути після дати початку")) ∧
    (today ≤ start_date → start_date < end_date →
      365 < end_date - start_date →
      validate_rental_dates today start_date end_date =
        (false, "Максимальна тривалість оренди - 365 днів")) := by
  refine ⟨?_, ?_, ?_, ?_⟩
  · simp only [validate_rental_dates]
    split_ifs with h1 h2 h3 h4 <;> simp <;> omega
  · intro h
    simp only [validate_rental_dates]
    rw [if_pos h]
  · intro h1 h2
    simp only [validate_rental_dates]
    rw [if_neg (by omega), if_pos h2]
  · intro h1 h2 h3
    simp only [validate_rental_dates]
    rw [if_neg (by omega), if_neg (by omega), if_pos (by omega)]

/-- Witness for C9: a one-year rental starting today validates, and a start
in the past is rejected with the matching message. -/
theorem validate_rental_dates_spec_witness :
    validate_rental_dates 10 3 20 =
      (false, "Дата початку не може бути в минулому") :=
  (validate_rental_dates_spec 10 3 20).2.1 (by norm_num)

/-- Claim C2: `create_rental` fails with `VehicleUnavailable` exactly when
the car's status is not `available`, fails with an `InvalidDateRange` error
(start in past, or end not after start) exactly when the car is available
but the dates are bad, and fails in no other case; every failure is raised
before any write, so an error carries no rental, no deposit payment and no
vehicle-status change (the `Except.error` payload contains no written row).
On success the rental is persisted with status `active` when
`start_date ≤ today` and `pending` otherwise, together with its deposit
payment, and the vehicle's status becomes `rented`. -/
theorem create_rental_spec (today current_year : Int) (client : Nat)
    (car : Car) (s e : Int) (strat : String) :
    (create_rental today current_year client car s e strat =
        Except.error RentalError.vehicleUnavailable ↔
      car.status ≠ CarStatus.available) ∧
    ((∃ err, create_rental today current_year client car s e strat =
        Except.error err ∧
        (err = RentalError.startInPast ∨ err = RentalError.endNotAfterStart)) ↔
      (car.status = CarStatus.available ∧ (s < today ∨ e ≤ s))) ∧
    (car.status = CarStatus.available → today ≤ s → s < e →
      ∃ res, create_rental today current_year client car s e strat =
          Except.ok res ∧
        res.rental.status =
          (if s ≤ today then RentalStatus.active else RentalStatus.pending) ∧
        res.rental.start_date = s ∧
        res.rental.expected_end_date = e ∧
        res.rental.deposit =
          calculate_deposit today current_year car (e - s + 1) ∧
        res.payment.payment_type = PaymentType.deposit ∧
        res.payment.amount = res.rental.deposit ∧
        res.car.status = CarStatus.rented) := by
  by_cases hA : car.status = CarStatus.available
  · by_cases hS : s < today
    · refine ⟨?_, ?_, ?_⟩
      · simp [create_rental, Car.is_available, hA, hS]
      · simp [create_rental, Car.is_available, hA, hS]
      · intro _ hT _
        omega
    · by_cases hE : e ≤ s
      · refine ⟨?_, ?_, ?_⟩
        · simp [create_rental, Car.is_available, hA, hS, hE]
        · simp [create_rental, Car.is_available, hA, hS, hE]
        · intro _ _ hlt
          omega
      · refine ⟨?_, ?_, ?_⟩
        · simp [create_rental, Car.is_available, hA, hS, hE]
        · simp [create_rental, Car.is_available, hA, hS, hE]
        · intro _ _ _
          have hok : create_rental today current_year client car s e strat =
              Except.ok
                { rental :=
                    { client := client
                      car := car
                      start_date := s
                      expected_end_date := e
                      actual_end_date := none
                      deposit := calculate_deposit today current_year car
                        (e - s + 1)
                      daily_cost := car.daily_price
                      total_cost := calculate_price (create_strategy strat)
                        current_year car s e
                      status := if s ≤ today then RentalStatus.active
                        else RentalStatus.pending
                      damage_level := 0
                      late_days := 0 }
                  payment :=
                    { payment_type := PaymentType.deposit
                      amount := calculate_deposit today current_year car
                        (e - s + 1) }
                  car := { car with status := CarStatus.rented } } := by
            unfold create_rental
            rw [if_neg (by simp [Car.is_available, hA]), if_neg hS, if_neg hE]
          exact ⟨_, hok, rfl, rfl, rfl, rfl, rfl, rfl, rfl⟩
  · refine ⟨?_, ?_, ?_⟩
    · simp [create_rental, Car.is_available, hA]
    · simp [create_rental, Car.is_available, hA]
    · intro hA2
      exact absurd hA2 hA

/-- Witness for C2: an available car rented from day 0 to day 9 succeeds
with an `active` rental, a deposit payment and a `rented` car. -/
theorem create_rental_spec_witness :
    ∃ res, create_rental 0 2025 0 sampleCar 0 9 "combined" = Except.ok res ∧
      res.rental.status =
        (if (0 : Int) ≤ 0 then RentalStatus.active else RentalStatus.pending) ∧
      res.rental.start_date = 0 ∧
      res.rental.expected_end_date = 9 ∧
      res.rental.deposit = calculate_deposit 0 2025 sampleCar (9 - 0 + 1) ∧
      res.payment.payment_type = PaymentType.deposit ∧
      res.payment.amount = res.rental.deposit ∧
      res.car.status = CarStatus.rented :=
  (create_rental_spec 0 2025 0 sampleCar 0 9 "combined").2.2
    rfl (by norm_num) (by norm_num)

/-- Claim C3: `complete_rental(rental, actual_end_date, damage_level,
late_days)` returns the `FineCalculator` fines and refund computed from the
rental's current deposit, sets `actual_end_date`, `damage_level`,
`late_days` and status `completed`, recomputes `total_cost` as the default
(Combined) price over `[start_date, actual_end_date]` plus the fines,
creates a `refund` payment of the refund amount exactly when the refund is
positive, and frees the vehicle (status `available`). -/
theorem complete_rental_spec (current_year : Int) (r : Rental)
    (actual_end_date damage_level late_days : Int) :
    (complete_rental current_year r actual_end_date damage_level
        late_days).total_fines =
      calculate_total_fines r damage_level late_days ∧
    (complete_rental current_year r actual_end_date damage_level
        late_days).refund =
      calculate_refund r (calculate_total_fines r damage_level late_days) ∧
    (complete_rental current_year r actual_end_date damage_level
        late_days).rental.actual_end_date = some actual_end_date ∧
    (complete_rental current_year r actual_end_date damage_level
        late_days).rental.damage_level = damage_level ∧
    (complete_rental current_year r actual_end_date damage_level
        late_days).rental.late_days = late_days ∧
    (complete_rental current_year r actual_end_date damage_level
        late_days).rental.status = RentalStatus.completed ∧
    (complete_rental current_year r actual_end_date damage_level
        late_days).rental.total_cost =
      combined_calculate_price current_year r.car r.start_date
          actual_end_date +
        calculate_total_fines r damage_level late_days ∧
    ((∃ p, (complete_rental current_year r actual_end_date damage_level
          late_days).refund_payment = some p ∧
        p.payment_type = PaymentType.refund ∧
        p.amount = (complete_rental current_year r actual_end_date
          damage_level late_days).refund) ↔
      0 < (complete_rental current_year r actual_end_date damage_level
        late_days).refund) ∧
    (complete_rental current_year r actual_end_date damage_level
        late_days).rental.car.status = CarStatus.available := by
  refine ⟨rfl, rfl, rfl, rfl, rfl, rfl, rfl, ?_, rfl⟩
  by_cases h : 0 < calculate_refund r
      (calculate_total_fines r damage_level late_days)
  · simp [complete_rental, h]
  · simp [complete_rental, h]

/-- Claim C10, evaluated at a failing input (`code_bug`): completing
`sampleRental` (deposit 3000) with the out-of-range `damage_level = 4` -
which the REST endpoint passes through unvalidated - creates a damage `Fine`
row with amount `3000 × 0 = 0`, because `_create_fine_records` tests
`damage_level > 0` while `calculate_damage_fine` coerces the out-of-range
level to the multiplier 0. This contradicts `Fine.amount`'s own
`MinValueValidator(0.01)` declaration and the documented 0-3 range. -/
theorem complete_rental_zero_amount_fine :
    (complete_rental 2025 sampleRental 9 4 0).fines.map Fine.amount = [0] ∧
    (complete_rental 2025 sampleRental 9 4 0).fines.map Fine.reason =
      ["Пошкодження рівня 4"] ∧
    calculate_damage_fine sampleRental 4 = 0 := by
  refine ⟨?_, ?_, ?_⟩
  · norm_num [complete_rental, create_fine_records, calculate_damage_fine,
      damage_multiplier, sampleRental]
  · norm_num [complete_rental, create_fine_records]
    rfl
  · norm_num [calculate_damage_fine, damage_multiplier, sampleRental]

/-- After pass (a), a rental matches pass (b)'s filter exactly when it was
already `active`, or was `pending` with `start_date ≤ today` (and so was
just activated), and its expected end date has passed. -/
lemma sweep_pending_then_overdue_pred (today : Int) (r : Rental) :
    ((sweep_pending today r).status = RentalStatus.active ∧
      (sweep_pending today r).expected_end_date < today) ↔
    ((r.status = RentalStatus.active ∨
        (r.status = RentalStatus.pending ∧ r.start_date ≤ today)) ∧
      r.expected_end_date < today) := by
  by_cases hp : r.status = RentalStatus.pending ∧ r.start_date ≤ today
  · simp [sweep_pending, hp.1, hp.2]
  · simp only [sweep_pending, if_neg hp]
    constructor
    · rintro ⟨ha, he⟩
      exact ⟨Or.inl ha, he⟩
    · rintro ⟨ha | hpend, he⟩
      · exact ⟨ha, he⟩
      · exact absurd hpend hp

/-- After one full sweep, no rental still matches pass (a)'s filter. -/
lemma after_sweep_not_pending_due (today : Int) (r : Rental) :
    ¬ ((sweep_overdue today (sweep_pending today r)).status =
        RentalStatus.pending ∧
       (sweep_overdue today (sweep_pending today r)).start_date ≤ today) := by
  by_cases hp : r.status = RentalStatus.pending ∧ r.start_date ≤ today
  · simp only [sweep_pending, if_pos hp, sweep_overdue]
    split_ifs <;> simp
  · simp only [sweep_pending, if_neg hp, sweep_overdue]
    split_ifs with ho
    · simp
    · exact hp

/-- After one full sweep followed by another pass (a), no rental matches
pass (b)'s filter. -/
lemma after_sweep_not_active_overdue (today : Int) (r : Rental) :
    ¬ ((sweep_pending today (sweep_overdue today (sweep_pending today r))).status =
        RentalStatus.active ∧
       (sweep_pending today
          (sweep_overdue today (sweep_pending today r))).expected_end_date <
        today) := by
  have h1 := after_sweep_not_pending_due today r
  rw [show sweep_pending today (sweep_overdue today (sweep_pending today r)) =
      sweep_overdue today (sweep_pending today r) from if_neg h1]
  by_cases hp : r.status = RentalStatus.pending ∧ r.start_date ≤ today
  · simp only [sweep_pending, if_pos hp, sweep_overdue]
    split_ifs with ho <;> simp_all
  · simp only [sweep_pending, if_neg hp, sweep_overdue]
    split_ifs with ho <;> simp_all

/-- Claim C5, counterexample: for `pendingLateRental` (still `pending`,
`start_date = 5 ≤ 10 = today`, `expected_end_date = 7 < 10`) the sweep
transitions and counts the SAME rental in both passes - it returns count 2
for a single rental and leaves it `overdue` - while running pass (b) before
pass (a) returns count 1 and leaves it `active`: the two passes are not
independent and their order matters. -/
theorem update_overdue_rentals_order_counterexample :
    (update_overdue_rentals 10 [pendingLateRental]).2 = 2 ∧
    (update_overdue_rentals_bFirst 10 [pendingLateRental]).2 = 1 ∧
    (update_overdue_rentals 10 [pendingLateRental]).1.map Rental.status =
      [RentalStatus.overdue] ∧
    (update_overdue_rentals_bFirst 10 [pendingLateRental]).1.map
        Rental.status = [RentalStatus.active] ∧
    (update_overdue_rentals 10 [pendingLateRental]).1 ≠
      (update_overdue_rentals_bFirst 10 [pendingLateRental]).1 := by
  have h1 : (update_overdue_rentals 10 [pendingLateRental]).1.map
      Rental.status = [RentalStatus.overdue] := by
    decide
  have h2 : (update_overdue_rentals_bFirst 10 [pendingLateRental]).1.map
      Rental.status = [RentalStatus.active] := by
    decide
  refine ⟨by decide, by decide, h1, h2, ?_⟩
  · intro heq
    rw [heq, h2] at h1
    exact absurd h1 (by simp)

/-- Claim C5 as amended: the sweep performs pass (a) (`pending` with
`start_date ≤ today` → `active`) and then pass (b) (`active` with
`expected_end_date < today` → `overdue`) on the already-updated rows, so the
final state applies pass (b) after pass (a) per rental, and the returned
count is the number of pending-due rentals plus the number of rentals that
are active after pass (a) - already `active`, or `pending` and just
activated - with a passed expected end date: such a doubly-matched rental is
transitioned and counted by both passes in one call. -/
theorem update_overdue_rentals_amended (today : Int) (rentals : List Rental) :
    (update_overdue_rentals today rentals).1 =
      rentals.map (fun r => sweep_overdue today (sweep_pending today r)) ∧
    (update_overdue_rentals today rentals).2 =
      rentals.countP (fun r =>
        decide (r.status = RentalStatus.pending ∧ r.start_date ≤ today)) +
      rentals.countP (fun r =>
        decide ((r.status = RentalStatus.active ∨
          (r.status = RentalStatus.pending ∧ r.start_date ≤ today)) ∧
          r.expected_end_date < today)) := by
  constructor
  · simp [update_overdue_rentals, List.map_map, Function.comp]
  · simp only [update_overdue_rentals, List.countP_map]
    congr 1
    refine List.countP_congr fun r _ => ?_
    simp only [Function.comp_apply, decide_eq_true_eq]
    exact sweep_pending_then_overdue_pred today r

/-- Claim C8: the sweep is idempotent - with no intervening change of the
current date, a second call finds no pending-due and no active-overdue
rental left and returns count 0. -/
theorem update_overdue_rentals_idempotent (today : Int)
    (rentals : List Rental) :
    (update_overdue_rentals today
      (update_overdue_rentals today rentals).1).2 = 0 := by
  simp only [update_overdue_rentals, List.map_map, List.countP_map,
    Nat.add_eq_zero]
  constructor
  · rw [List.countP_eq_zero]
    intro r _
    simp only [Function.comp_apply, decide_eq_true_eq]
    exact after_sweep_not_pending_due today r
  · rw [List.countP_eq_zero]
    intro r _
    simp only [Function.comp_apply, decide_eq_true_eq]
    exact after_sweep_not_active_overdue today r

end RentalCRM
